import Mathlib

/-!
# Verification of the Lamela browser-extension protocol core

Shallow embedding of the repository's transport, codec, dispatcher,
command-executor and identity code (`src/ws.ts`, `src/commandHandler.ts`,
`src/background.ts`, `src/types.ts`) together with proofs settling the
frozen claims about it.

Conventions used throughout:
* JavaScript values that travel through `JSON.stringify` / `JSON.parse`
  are modelled by the mutual inductive `JsVal` below; a `Date` object is
  the `date` constructor carrying its ISO serialization (the string its
  `toJSON` produces).
* Stateful code (the WebSocket singleton with its timers) is an explicit
  step function over a state record, driven by an event list.
* Fallible operations return `Except`.
-/

/-! ## JavaScript values -/

mutual

/-- A JavaScript runtime value as it appears in the extension's packets.
`date iso` is a `Date` object, carrying the ISO-8601 string that
`Date.prototype.toJSON` yields for it. -/
inductive JsVal where
  | null : JsVal
  | bool : Bool → JsVal
  | num : Int → JsVal
  | str : String → JsVal
  | arr : JsList → JsVal
  | obj : JsFields → JsVal
  | date : String → JsVal
deriving DecidableEq

/-- A list of JavaScript values (array elements). -/
inductive JsList where
  | nil : JsList
  | cons : JsVal → JsList → JsList
deriving DecidableEq

/-- Ordered fields of a JavaScript object literal. -/
inductive JsFields where
  | nil : JsFields
  | cons : String → JsVal → JsFields → JsFields
deriving DecidableEq

end

mutual

/-- Semantics of `JSON.parse (JSON.stringify v)` on a JavaScript value:
`sendWebSocketMessage` serializes with `JSON.stringify` (src/ws.ts:32) and
the message handler parses with `JSON.parse` (src/ws.ts:134).  JSON-native
constructors survive unchanged; a `Date` is serialized via its `toJSON`
ISO string and parsed back as a plain string. -/
def jsonRoundTrip : JsVal → JsVal
  | .null => .null
  | .bool b => .bool b
  | .num n => .num n
  | .str s => .str s
  | .arr xs => .arr (jsonRoundTripList xs)
  | .obj fs => .obj (jsonRoundTripFields fs)
  | .date iso => .str iso

/-- `jsonRoundTrip` on array elements. -/
def jsonRoundTripList : JsList → JsList
  | .nil => .nil
  | .cons v tl => .cons (jsonRoundTrip v) (jsonRoundTripList tl)

/-- `jsonRoundTrip` on object fields. -/
def jsonRoundTripFields : JsFields → JsFields
  | .nil => .nil
  | .cons k v tl => .cons k (jsonRoundTrip v) (jsonRoundTripFields tl)

end

mutual

/-- A value is date-free when no `Date` object occurs anywhere in it,
i.e. it is a plain JSON value. -/
def dateFree : JsVal → Bool
  | .null => true
  | .bool _ => true
  | .num _ => true
  | .str _ => true
  | .arr xs => dateFreeList xs
  | .obj fs => dateFreeFields fs
  | .date _ => false

/-- `dateFree` on array elements. -/
def dateFreeList : JsList → Bool
  | .nil => true
  | .cons v tl => dateFree v && dateFreeList tl

/-- `dateFree` on object fields. -/
def dateFreeFields : JsFields → Bool
  | .nil => true
  | .cons _ v tl => dateFree v && dateFreeFields tl

end

mutual

theorem jsonRoundTrip_eq_of_dateFree : ∀ v : JsVal, dateFree v = true → jsonRoundTrip v = v
  | .null, _ => rfl
  | .bool _, _ => rfl
  | .num _, _ => rfl
  | .str _, _ => rfl
  | .arr xs, h => by
      simp only [dateFree] at h
      simp only [jsonRoundTrip, jsonRoundTripList_eq_of_dateFree xs h]
  | .obj fs, h => by
      simp only [dateFree] at h
      simp only [jsonRoundTrip, jsonRoundTripFields_eq_of_dateFree fs h]
  | .date _, h => by simp [dateFree] at h

theorem jsonRoundTripList_eq_of_dateFree :
    ∀ xs : JsList, dateFreeList xs = true → jsonRoundTripList xs = xs
  | .nil, _ => rfl
  | .cons v tl, h => by
      simp only [dateFreeList, Bool.and_eq_true] at h
      simp only [jsonRoundTripList, jsonRoundTrip_eq_of_dateFree v h.1,
        jsonRoundTripList_eq_of_dateFree tl h.2]

theorem jsonRoundTripFields_eq_of_dateFree :
    ∀ fs : JsFields, dateFreeFields fs = true → jsonRoundTripFields fs = fs
  | .nil, _ => rfl
  | .cons k v tl, h => by
      simp only [dateFreeFields, Bool.and_eq_true] at h
      simp only [jsonRoundTripFields, jsonRoundTrip_eq_of_dateFree v h.1,
        jsonRoundTripFields_eq_of_dateFree tl h.2]

end

/-! ## Packet construction (src/types.ts) -/

/-- The `INIT` packet that `keepAlive` builds (src/background.ts:22-30):
`{ type: 'INIT', data: { accessCode, userAgent, isOnline: true,
lastOnline: new Date() } }`.  `lastOnline` is a `Date` object. -/
def mkInitPacket (accessCode userAgent iso : String) : JsVal :=
  .obj (.cons "type" (.str "INIT")
    (.cons "data" (.obj
      (.cons "accessCode" (.str accessCode)
      (.cons "userAgent" (.str userAgent)
      (.cons "isOnline" (.bool true)
      (.cons "lastOnline" (.date iso) .nil))))) .nil))

/-- A structurally valid `COMMAND_RESULT` packet (src/types.ts:61-71); all
its declared fields are JSON-native. -/
def mkCommandResultPacket (commandId accessCode : String) (success : Bool)
    (timestamp : Int) : JsVal :=
  .obj (.cons "type" (.str "COMMAND_RESULT")
    (.cons "data" (.obj
      (.cons "commandId" (.str commandId)
      (.cons "accessCode" (.str accessCode)
      (.cons "success" (.bool success)
      (.cons "timestamp" (.num timestamp) .nil))))) .nil))

/-- C1, counterexample: an `INIT` packet as declared (`lastOnline : Date`,
src/types.ts:74-82) does not survive the encode/decode round trip: the
`Date` comes back as its ISO string. -/
theorem init_packet_roundTrip_ne :
    jsonRoundTrip (mkInitPacket "123456" "UA" "2024-01-01T00:00:00.000Z") ≠
      mkInitPacket "123456" "UA" "2024-01-01T00:00:00.000Z" := by
  decide

/-- C1, amended: decoding the encoded wire text yields a packet equal to
the original for every packet all of whose payload values are JSON-native
(no `Date` anywhere); the declared `INIT` packet carries a `Date`
`lastOnline` and is exactly the kind for which the round trip fails. -/
theorem roundTrip_eq_of_dateFree (p : JsVal) (h : dateFree p = true) :
    jsonRoundTrip p = p :=
  jsonRoundTrip_eq_of_dateFree p h

/-- Witness for `roundTrip_eq_of_dateFree` at a concrete `COMMAND_RESULT`
packet. -/
theorem roundTrip_eq_of_dateFree_witness :
    dateFree (mkCommandResultPacket "cmd-1" "123456" true 1700000000000) = true ∧
      jsonRoundTrip (mkCommandResultPacket "cmd-1" "123456" true 1700000000000) =
        mkCommandResultPacket "cmd-1" "123456" true 1700000000000 :=
  ⟨by decide, roundTrip_eq_of_dateFree _ (by decide)⟩

/-! ## WebSocket singleton lifecycle (src/ws.ts)

The module-level mutable state of `ws.ts` — the `socket` variable, the
`reconnectTimeout` and `pingInterval` handles — modelled as a record, with
the code's entry points and the socket events as a step function.  Sockets
are numbered; a socket's `onclose` handler stays attached to the socket
object itself, so a close event can fire for a socket even after the
module variable has been set to `null` by `closeWebSocket`. -/

/-- The mutable module state of `src/ws.ts`. `live` holds the ids of
sockets created by `initializeWebSocket` whose close event has not yet
fired (their handlers are still attached); `sockOpen` the subset whose
open event has fired (readyState OPEN). -/
structure WsState where
  socketVar : Option Nat
  live : List Nat
  sockOpen : List Nat
  reconnectArmed : Bool
  pingArmed : Bool
  nextId : Nat
deriving DecidableEq

/-- Events driving the `ws.ts` state: the two exported entry points and
the asynchronous open/close events of a socket. -/
inductive WsEvent where
  | initWs : WsEvent
  | openEvt : Nat → WsEvent
  | closeEvt : Nat → WsEvent
  | closeWs : WsEvent
deriving DecidableEq

/-- `socket && socket.readyState === WebSocket.OPEN` (src/ws.ts:77). -/
def wsIsOpen (st : WsState) : Bool :=
  match st.socketVar with
  | some s => st.sockOpen.contains s
  | none => false

/-- One step of the `ws.ts` state machine.
* `initWs` is `initializeWebSocket` (src/ws.ts:76-97): early return when
  the held socket is OPEN; otherwise clear both timers and create a fresh
  socket.
* `openEvt s` is the `socket.onopen` handler (src/ws.ts:99-122): marks the
  socket OPEN and, when the module variable is non-null, arms the ping
  interval (the registration send is modelled separately).
* `closeEvt s` is the `socket.onclose` handler (src/ws.ts:148-161): runs
  whenever a socket with its handler still attached closes; clears the
  ping interval and unconditionally arms the reconnect timer.
* `closeWs` is `closeWebSocket` (src/ws.ts:171-188): calls `close()` on
  the held socket (whose close event will fire later), nulls the variable
  and clears both timers. -/
def wsStep (st : WsState) : WsEvent → WsState
  | .initWs =>
    if wsIsOpen st then st
    else
      { socketVar := some st.nextId
        live := st.nextId :: st.live
        sockOpen := st.sockOpen
        reconnectArmed := false
        pingArmed := false
        nextId := st.nextId + 1 }
  | .openEvt s =>
    if st.live.contains s && !(st.sockOpen.contains s) then
      { st with sockOpen := s :: st.sockOpen
                pingArmed := if st.socketVar.isSome then true else st.pingArmed }
    else st
  | .closeEvt s =>
    if st.live.contains s then
      { st with live := st.live.erase s
                sockOpen := st.sockOpen.erase s
                pingArmed := false
                reconnectArmed := true }
    else st
  | .closeWs =>
    { st with socketVar := none
              reconnectArmed := false
              pingArmed := false }

/-- The state at module load: no socket, no timers. -/
def wsInit : WsState :=
  { socketVar := none, live := [], sockOpen := [], reconnectArmed := false
    pingArmed := false, nextId := 0 }

/-- Run a chronological event list from the initial state. -/
def wsRun (evts : List WsEvent) : WsState :=
  evts.foldl wsStep wsInit

/-- C2, counterexample: open a connection, call `closeWebSocket` on it,
then let the closed socket's own close event fire — with no new
`initializeWebSocket` call in between.  The connection was open when
`closeWebSocket` ran, the call did clear the timers, yet the close event
arms a reconnect timer: a reconnect is scheduled after `closeWebSocket`
and before any new `initializeWebSocket` call, refuting the claim. -/
theorem closeWebSocket_reconnect_rearmed :
    wsIsOpen (wsRun [.initWs, .openEvt 0]) = true ∧
      (wsRun [.initWs, .openEvt 0, .closeWs]).reconnectArmed = false ∧
      (wsRun [.initWs, .openEvt 0, .closeWs, .closeEvt 0]).reconnectArmed = true := by
  decide

/-- C2, amended: `closeWebSocket` cancels any pending reconnect and
keepalive timers and nulls the socket variable at the moment of the call;
but the `onclose` handler remains attached to the socket that was closed,
and the close event of any socket whose handler is still attached
unconditionally arms a new reconnect timer — so the close of the live
socket itself does re-arm a reconnect. -/
theorem closeWebSocket_clears_then_close_event_rearms (st : WsState) :
    ((wsStep st .closeWs).reconnectArmed = false ∧
      (wsStep st .closeWs).pingArmed = false ∧
      (wsStep st .closeWs).socketVar = none) ∧
    (∀ s, s ∈ st.live →
      (wsStep st (.closeEvt s)).reconnectArmed = true) := by
  refine ⟨⟨rfl, rfl, rfl⟩, fun s hs => ?_⟩
  simp [wsStep, hs]

/-- Witness for `closeWebSocket_clears_then_close_event_rearms` at the
state reached after `[initWs, openEvt 0, closeWs]`, with socket 0. -/
theorem closeWebSocket_clears_then_close_event_rearms_witness :
    0 ∈ (wsRun [.initWs, .openEvt 0, .closeWs]).live ∧
      (wsStep (wsRun [.initWs, .openEvt 0, .closeWs]) (.closeEvt 0)).reconnectArmed = true :=
  ⟨by decide,
    (closeWebSocket_clears_then_close_event_rearms
      (wsRun [.initWs, .openEvt 0, .closeWs])).2 0 (by decide)⟩

/-! ## Packet kinds and the registration message (src/types.ts, src/ws.ts) -/

/-- The members of the `PacketType` enum (src/types.ts:38-46), as
member-name/value pairs. -/
def packetTypeMembers : List (String × String) :=
  [("COMMAND", "COMMAND"), ("COMMAND_RESULT", "COMMAND_RESULT"),
   ("INIT", "INIT"), ("EXIT", "EXIT"), ("PING", "PING"), ("PONG", "PONG"),
   ("ERROR", "ERROR")]

/-- Member access `PacketType.<name>`: the declared value, or `none`
(JavaScript `undefined`) when no such member is declared. -/
def packetTypeMember (name : String) : Option String :=
  (packetTypeMembers.find? (fun p => p.1 == name)).map (·.2)

/-- The declared packet kinds of the `Packet` tagged union. -/
def declaredPacketKinds : List String := packetTypeMembers.map (·.2)

/-- The registration message built in `socket.onopen` (src/ws.ts:103-106):
`{ type: PacketType.REGISTER, data: { accessCode } }`, as its kind tag
paired with its payload. -/
def registerMessage (accessCode : String) : Option String × JsVal :=
  (packetTypeMember "REGISTER", .obj (.cons "accessCode" (.str accessCode) .nil))

/-- C3: the registration message does carry the access code, but its kind
tag is `PacketType.REGISTER`, which is not a member of the declared
`PacketType` enum — the tag evaluates to `undefined` and is none of the
declared kinds, so the message is not a well-formed member of the
`Packet` tagged union. -/
theorem registerMessage_kind_undeclared (accessCode : String) :
    (registerMessage accessCode).2 = .obj (.cons "accessCode" (.str accessCode) .nil) ∧
      (registerMessage accessCode).1 = none ∧
      (registerMessage accessCode).1 ∉ declaredPacketKinds.map some :=
  ⟨rfl, rfl, show packetTypeMember "REGISTER" ∉ declaredPacketKinds.map some by decide⟩

/-! ## Substring occurrence

`mentions needle hay` decides whether the text `needle` occurs
contiguously in the text `hay`; it is how "the error message mentions
X" is stated. -/

/-- `leadsChars n h`: `n` is an initial segment of `h`. -/
def leadsChars : List Char → List Char → Bool
  | [], _ => true
  | _ :: _, [] => false
  | a :: as, b :: bs => a == b && leadsChars as bs

/-- `hasSub n h`: `n` occurs contiguously inside `h`. -/
def hasSub (n : List Char) : List Char → Bool
  | [] => leadsChars n []
  | c :: t => leadsChars n (c :: t) || hasSub n t

/-- The text `hay` mentions the phrase `needle`. -/
def mentions (needle hay : String) : Bool := hasSub needle.data hay.data

theorem leadsChars_append (n : List Char) :
    ∀ h t : List Char, leadsChars n h = true → leadsChars n (h ++ t) = true := by
  induction n with
  | nil => intro h t _; rfl
  | cons a as ih =>
    intro h t hl
    cases h with
    | nil => simp [leadsChars] at hl
    | cons b bs =>
      simp only [leadsChars, Bool.and_eq_true] at hl
      simpa [leadsChars, hl.1] using ih bs t hl.2

theorem hasSub_append_left (n : List Char) :
    ∀ h t : List Char, hasSub n h = true → hasSub n (h ++ t) = true := by
  intro h
  induction h with
  | nil =>
    intro t hh
    cases n with
    | nil =>
      cases t with
      | nil => rfl
      | cons c t' => simp [hasSub, leadsChars]
    | cons a as => simp [hasSub, leadsChars] at hh
  | cons c h' ih =>
    intro t hh
    simp only [hasSub, Bool.or_eq_true] at hh
    rcases hh with hl | hs
    · simpa [hasSub] using Or.inl (leadsChars_append n (c :: h') t hl)
    · simpa [hasSub] using Or.inr (ih t hs)

/-- If a phrase occurs in `a`, it occurs in `a ++ b` — used to show a
fixed message body still occurs once a selector is appended. -/
theorem mentions_append_left (needle a b : String) (h : mentions needle a = true) :
    mentions needle (a ++ b) = true := by
  unfold mentions at h ⊢
  rw [String.data_append]
  exact hasSub_append_left needle.data a.data b.data h

/-! ## Command dispatch and result emission (src/commandHandler.ts) -/

/-- A JavaScript thrown value as seen by a `catch (err)` clause: an
`Error` object with its `message` string, or a non-`Error` value. -/
inductive Thrown where
  | errorObj : String → Thrown
  | nonError : Thrown
deriving DecidableEq

/-- `err instanceof Error ? err.message : 'Unknown error'`
(src/commandHandler.ts:30). -/
def thrownMessage : Thrown → String
  | .errorObj m => m
  | .nonError => "Unknown error"

/-- The `COMMAND_RESULT` packet built by `sendCommandResult`
(src/types.ts:61-71); `result`/`error` are `none` when the field is
`null`/`undefined`. -/
structure ResultPacket where
  pktType : String
  commandId : String
  accessCode : String
  success : Bool
  result : Option JsVal
  error : Option String
  timestamp : Int
deriving DecidableEq

/-- `sendCommandResult` (src/commandHandler.ts:41-63): builds the result
packet handed to `sendWebSocketMessage`; `error: error || undefined`
drops both a null and an empty error string. -/
def sendCommandResult (commandId accessCode : String) (success : Bool)
    (result : Option JsVal) (error : Option String) (timestamp : Int) : ResultPacket :=
  { pktType := "COMMAND_RESULT", commandId, accessCode, success, result
    error := match error with
      | some m => if m = "" then none else some m
      | none => none
    timestamp }

/-- The browser operation each handled `switch` case of `executeCommand`
dispatches to, carrying the parameters it extracts from `params`
(src/commandHandler.ts:71-120). -/
inductive BrowserAction where
  | navigateToUrl : Option JsVal → BrowserAction
  | reloadPage : BrowserAction
  | navigateBack : BrowserAction
  | navigateForward : BrowserAction
  | clickElement : Option JsVal → BrowserAction
  | fillForm : Option JsVal → Option JsVal → BrowserAction
  | selectOption : Option JsVal → Option JsVal → BrowserAction
  | hoverElement : Option JsVal → BrowserAction
  | focusElement : Option JsVal → BrowserAction
  | extractText : Option JsVal → BrowserAction
  | extractHtml : Option JsVal → BrowserAction
  | extractAttribute : Option JsVal → Option JsVal → BrowserAction
  | evaluateFunction : Option JsVal → Option JsVal → BrowserAction
  | waitForElement : Option JsVal → Option JsVal → BrowserAction
  | waitForNavigation : Option JsVal → BrowserAction
  | waitForTimeout : Option JsVal → BrowserAction
  | handleExit : BrowserAction

/-- The `switch (command)` of `executeCommand`
(src/commandHandler.ts:71-120): a strict-equality chain over the
`CommandType` string values, falling through to
``throw new Error(`Unknown command: ${command}`)``.  `params` is the
packet's parameter mapping (`params.url` is `params "url"`, absent keys
are `undefined`). -/
def executeCommand (command : String) (params : String → Option JsVal) :
    Except String BrowserAction :=
  if command = "goto" then .ok (.navigateToUrl (params "url"))
  else if command = "reload" then .ok .reloadPage
  else if command = "back" then .ok .navigateBack
  else if command = "forward" then .ok .navigateForward
  else if command = "click" then .ok (.clickElement (params "selector"))
  else if command = "type" then .ok (.fillForm (params "selector") (params "text"))
  else if command = "select" then .ok (.selectOption (params "selector") (params "value"))
  else if command = "hover" then .ok (.hoverElement (params "selector"))
  else if command = "focus" then .ok (.focusElement (params "selector"))
  else if command = "getText" then .ok (.extractText (params "selector"))
  else if command = "getHtml" then .ok (.extractHtml (params "selector"))
  else if command = "getAttribute" then
    .ok (.extractAttribute (params "selector") (params "attribute"))
  else if command = "evaluate" then
    .ok (.evaluateFunction (params "function") (params "arguments"))
  else if command = "waitForSelector" then
    .ok (.waitForElement (params "selector") (params "timeout"))
  else if command = "waitForNavigation" then .ok (.waitForNavigation (params "timeout"))
  else if command = "waitForTimeout" then .ok (.waitForTimeout (params "timeout"))
  else if command = "exit" then .ok .handleExit
  else .error ("Unknown command: " ++ command)

/-- The command names the `switch` handles (every `CommandType` value
except `screenshot` and `pdf`). -/
def handledCommandNames : List String :=
  ["goto", "reload", "back", "forward", "click", "type", "select", "hover",
   "focus", "getText", "getHtml", "getAttribute", "evaluate",
   "waitForSelector", "waitForNavigation", "waitForTimeout", "exit"]

/-- All declared `CommandType` enum values (src/types.ts:6-35). -/
def commandTypeValues : List String :=
  ["goto", "reload", "back", "forward", "click", "type", "select", "hover",
   "focus", "screenshot", "pdf", "getText", "getHtml", "getAttribute",
   "evaluate", "waitForSelector", "waitForNavigation", "waitForTimeout", "exit"]

theorem executeCommand_unknown (command : String) (params : String → Option JsVal)
    (h : command ∉ handledCommandNames) :
    executeCommand command params = .error ("Unknown command: " ++ command) := by
  simp only [handledCommandNames, List.mem_cons, List.not_mem_nil, or_false, not_or] at h
  obtain ⟨h1, h2, h3, h4, h5, h6, h7, h8, h9, h10, h11, h12, h13, h14, h15, h16, h17⟩ := h
  simp [executeCommand, h1, h2, h3, h4, h5, h6, h7, h8, h9, h10, h11, h12, h13,
    h14, h15, h16, h17]

/-- The outcome of `await this.executeCommand(command, params)` inside
`processCommand`'s `try` (src/commandHandler.ts:26): the default branch
throws, a handled branch defers to the browser operation, whose outcome
`run` supplies. -/
def commandOutcome (command : String) (params : String → Option JsVal)
    (run : BrowserAction → Except Thrown JsVal) : Except Thrown JsVal :=
  match executeCommand command params with
  | .ok act => run act
  | .error m => .error (.errorObj m)

/-- `processCommand` (src/commandHandler.ts:15-36) as the list of result
packets it hands to the transport for one inbound `COMMAND` packet:
execute, catch, then send exactly one `COMMAND_RESULT`. -/
def processCommand (commandId accessCode command : String)
    (params : String → Option JsVal) (run : BrowserAction → Except Thrown JsVal)
    (timestamp : Int) : List ResultPacket :=
  match commandOutcome command params run with
  | .ok v => [sendCommandResult commandId accessCode true (some v) none timestamp]
  | .error t =>
    [sendCommandResult commandId accessCode false none (some (thrownMessage t)) timestamp]

theorem leadsChars_refl : ∀ l : List Char, leadsChars l l = true
  | [] => rfl
  | a :: as => by simp [leadsChars, leadsChars_refl as]

theorem hasSub_refl (n : List Char) : hasSub n n = true := by
  cases n with
  | nil => rfl
  | cons c t => simp [hasSub, leadsChars_refl]

theorem mentions_refl (s : String) : mentions s s = true := hasSub_refl s.data

theorem unknown_msg_ne_empty (command : String) :
    ("Unknown command: " ++ command) ≠ "" := by
  intro e
  have hlen : ("Unknown command: " ++ command).length = 0 := by rw [e]; rfl
  rw [String.length_append] at hlen
  have h17 : ("Unknown command: " : String).length = 17 := rfl
  omega

/-- C4, counterexample: a command whose execution throws an `Error` with
an empty message (reachable: `executeScriptInActiveTab` rejects with
`new Error(chrome.runtime.lastError.message)`, and `lastError.message`
may be absent) yields the single result packet with success=false but
NO error string at all — `error: error || undefined` drops the empty
string — refuting "success=false and a non-empty error string when
execution throws". -/
theorem processCommand_throw_empty_message_no_error_string :
    processCommand "cmd-1" "123456" "click" (fun _ => none)
        (fun _ => .error (.errorObj "")) 0 =
      [{ pktType := "COMMAND_RESULT", commandId := "cmd-1", accessCode := "123456",
         success := false, result := none, error := none, timestamp := 0 }] := rfl

/-- C4, amended: for every inbound `COMMAND` packet, `processCommand`
emits exactly one `COMMAND_RESULT`, correlated by the inbound commandId,
with success=true and the executor's result when execution succeeds; when
execution throws, success=false with the thrown error's message (or
"Unknown error" for a non-`Error` throw) as the error string — except
that an empty thrown message yields no error string at all. -/
theorem processCommand_emits_exactly_one_result (commandId accessCode command : String)
    (params : String → Option JsVal) (run : BrowserAction → Except Thrown JsVal)
    (timestamp : Int) :
    processCommand commandId accessCode command params run timestamp =
      [match commandOutcome command params run with
       | .ok v =>
         { pktType := "COMMAND_RESULT", commandId, accessCode, success := true,
           result := some v, error := none, timestamp }
       | .error t =>
         { pktType := "COMMAND_RESULT", commandId, accessCode, success := false,
           result := none,
           error := if thrownMessage t = "" then none else some (thrownMessage t),
           timestamp }] := by
  unfold processCommand
  cases commandOutcome command params run with
  | ok v => rfl
  | error t => rfl

/-- C8: every command name outside the handled `switch` cases falls to
the default branch; the thrown "Unknown command: <name>" is caught and
the single emitted result has success=false and that exact (non-empty)
error string, which mentions "Unknown command: " followed by the name. -/
theorem unknown_command_failed_result (commandId accessCode command : String)
    (params : String → Option JsVal) (run : BrowserAction → Except Thrown JsVal)
    (timestamp : Int) (h : command ∉ handledCommandNames) :
    processCommand commandId accessCode command params run timestamp =
      [{ pktType := "COMMAND_RESULT", commandId, accessCode, success := false,
         result := none, error := some ("Unknown command: " ++ command), timestamp }] ∧
      mentions ("Unknown command: " ++ command) ("Unknown command: " ++ command) = true := by
  refine ⟨?_, mentions_refl _⟩
  unfold processCommand commandOutcome
  rw [executeCommand_unknown command params h]
  simp [sendCommandResult, thrownMessage, unknown_msg_ne_empty command]

/-- Witness for `unknown_command_failed_result` at commandName
"unknownThing". -/
theorem unknown_command_failed_result_witness :
    "unknownThing" ∉ handledCommandNames ∧
      processCommand "abc" "123456" "unknownThing" (fun _ => none)
          (fun _ => .ok .null) 0 =
        [{ pktType := "COMMAND_RESULT", commandId := "abc", accessCode := "123456",
           success := false, result := none,
           error := some ("Unknown command: " ++ "unknownThing"), timestamp := 0 }] :=
  ⟨by decide,
    (unknown_command_failed_result "abc" "123456" "unknownThing" (fun _ => none)
      (fun _ => .ok .null) 0 (by decide)).1⟩

/-- C10: "screenshot" and "pdf" are declared `CommandType` members, yet
the executor's `switch` has no case for them: both fall to the default
branch, and for every parameter mapping the inbound `COMMAND` yields one
result with success=false and error "Unknown command: screenshot" /
"Unknown command: pdf". -/
theorem screenshot_pdf_fall_to_default (commandId accessCode : String)
    (params : String → Option JsVal) (run : BrowserAction → Except Thrown JsVal)
    (timestamp : Int) :
    "screenshot" ∈ commandTypeValues ∧ "pdf" ∈ commandTypeValues ∧
      "screenshot" ∉ handledCommandNames ∧ "pdf" ∉ handledCommandNames ∧
      executeCommand "screenshot" params = .error "Unknown command: screenshot" ∧
      executeCommand "pdf" params = .error "Unknown command: pdf" ∧
      processCommand commandId accessCode "screenshot" params run timestamp =
        [{ pktType := "COMMAND_RESULT", commandId, accessCode, success := false,
           result := none, error := some "Unknown command: screenshot", timestamp }] ∧
      processCommand commandId accessCode "pdf" params run timestamp =
        [{ pktType := "COMMAND_RESULT", commandId, accessCode, success := false,
           result := none, error := some "Unknown command: pdf", timestamp }] :=
  ⟨by decide, by decide, by decide, by decide, rfl, rfl, rfl, rfl⟩

/-! ## Selector commands against the active target (src/commandHandler.ts)

Each command generates an in-page script that locates elements by a
selector and throws when none match.  The page is modelled by its
`document.querySelectorAll` capability; `querySelector` is the head of
that list.  The selector embedded in the script text is `escapeString`'d
by the generator and read back verbatim by the in-page string-literal
grammar (`unquote_escape` below), so the runtime messages carry the
original selector. -/

/-- An element of the active page as the generated scripts read it
(`innerText || textContent` collapsed into one text field). -/
structure PageElement where
  text : String
  outerHtml : String
  getAttr : String → Option String

/-- The active page: its `document.querySelectorAll` capability. -/
structure Page where
  queryAll : String → List PageElement

/-- `executeScriptInActiveTab` (src/commandHandler.ts:451-473): rejects
with "No active tab found" when there is no active tab, otherwise runs
the generated script in the page and yields its result. -/
def executeScriptInActiveTab (tab : Option Page)
    (script : Page → Except String JsVal) : Except String JsVal :=
  match tab with
  | none => .error "No active tab found"
  | some page => script page

/-- One character under `escapeString` (src/commandHandler.ts:487-489):
the three sequential global replaces `\ → \\`, `' → \'`, `" → \"` act
independently on each character of the original string. -/
def escChar (c : Char) : List Char :=
  if c = '\\' ∨ c = '\'' ∨ c = '"' then ['\\', c] else [c]

/-- `escapeString` applied to a whole string. -/
def escapeString (s : String) : String := ⟨(s.data.map escChar).flatten⟩

/-- Reading text back through the JavaScript string-literal grammar: a
backslash escapes the character after it. -/
def unquoteChars : List Char → List Char
  | [] => []
  | c :: rest =>
    if c = '\\' then
      match rest with
      | [] => []
      | d :: rest2 => d :: unquoteChars rest2
    else c :: unquoteChars rest

theorem unquoteChars_cons_ne (c : Char) (h : c ≠ '\\') (rest : List Char) :
    unquoteChars (c :: rest) = c :: unquoteChars rest := by
  rw [unquoteChars.eq_def]
  simp [h]

/-- The escaping round-trips: when a generated script embeds
`escapeString s` inside a quoted literal, the in-page runtime value of
that literal is `s` again; the in-page error messages below therefore
carry the original selector. -/
theorem unquote_escape (s : String) : unquoteChars (escapeString s).data = s.data := by
  show unquoteChars ((s.data.map escChar).flatten) = s.data
  induction s.data with
  | nil => rfl
  | cons c l ih =>
    by_cases hc : c = '\\' ∨ c = '\'' ∨ c = '"'
    · simp [escChar, if_pos hc, unquoteChars, ih]
    · have hcb : c ≠ '\\' := fun e => hc (Or.inl e)
      simp [escChar, hc, unquoteChars_cons_ne c hcb, ih]

/-- `clickElement` (src/commandHandler.ts:216-223): throws
`Element not found: <selector>` when no element matches; else clicks the
first match and reports. -/
def clickElement (tab : Option Page) (selector : String) : Except String JsVal :=
  executeScriptInActiveTab tab (fun page =>
    match page.queryAll selector with
    | [] => .error ("Element not found: " ++ selector)
    | _ :: _ =>
      .ok (.obj (.cons "clicked" (.bool true) (.cons "selector" (.str selector) .nil))))

/-- `fillForm` (src/commandHandler.ts:230-241), the `type` command. -/
def fillForm (tab : Option Page) (selector txt : String) : Except String JsVal :=
  executeScriptInActiveTab tab (fun page =>
    match page.queryAll selector with
    | [] => .error ("Form element not found: " ++ selector)
    | _ :: _ =>
      .ok (.obj (.cons "filled" (.bool true) (.cons "selector" (.str selector) .nil))))

/-- `selectOption` (src/commandHandler.ts:248-258). -/
def selectOption (tab : Option Page) (selector value : String) : Except String JsVal :=
  executeScriptInActiveTab tab (fun page =>
    match page.queryAll selector with
    | [] => .error ("Select element not found: " ++ selector)
    | _ :: _ =>
      .ok (.obj (.cons "selected" (.bool true) (.cons "selector" (.str selector)
        (.cons "value" (.str value) .nil)))))

/-- `hoverElement` (src/commandHandler.ts:264-274). -/
def hoverElement (tab : Option Page) (selector : String) : Except String JsVal :=
  executeScriptInActiveTab tab (fun page =>
    match page.queryAll selector with
    | [] => .error ("Element not found: " ++ selector)
    | _ :: _ =>
      .ok (.obj (.cons "hovered" (.bool true) (.cons "selector" (.str selector) .nil))))

/-- `focusElement` (src/commandHandler.ts:280-289). -/
def focusElement (tab : Option Page) (selector : String) : Except String JsVal :=
  executeScriptInActiveTab tab (fun page =>
    match page.queryAll selector with
    | [] => .error ("Element not found: " ++ selector)
    | _ :: _ =>
      .ok (.obj (.cons "focused" (.bool true) (.cons "selector" (.str selector) .nil))))

/-- The texts of the matched elements as a JavaScript array. -/
def textsJsList : List PageElement → JsList
  | [] => .nil
  | el :: t => .cons (.str el.text) (textsJsList t)

/-- The outerHTML of the matched elements as a JavaScript array. -/
def htmlJsList : List PageElement → JsList
  | [] => .nil
  | el :: t => .cons (.str el.outerHtml) (htmlJsList t)

/-- The attribute values of the matched elements as a JavaScript array;
`getAttribute` yields `null` for an absent attribute. -/
def attrJsList (attrName : String) : List PageElement → JsList
  | [] => .nil
  | el :: t =>
    .cons (match el.getAttr attrName with | some v => .str v | none => .null)
      (attrJsList attrName t)

/-- `extractText` (src/commandHandler.ts:295-302): throws
`No elements found: <selector>` when nothing matches; else maps
`innerText || textContent` over all matches. -/
def extractText (tab : Option Page) (selector : String) : Except String JsVal :=
  executeScriptInActiveTab tab (fun page =>
    match page.queryAll selector with
    | [] => .error ("No elements found: " ++ selector)
    | els => .ok (.arr (textsJsList els)))

/-- `extractHtml` (src/commandHandler.ts:308-315). -/
def extractHtml (tab : Option Page) (selector : String) : Except String JsVal :=
  executeScriptInActiveTab tab (fun page =>
    match page.queryAll selector with
    | [] => .error ("No elements found: " ++ selector)
    | els => .ok (.arr (htmlJsList els)))

/-- `extractAttribute` (src/commandHandler.ts:322-329). -/
def extractAttribute (tab : Option Page) (selector attrName : String) :
    Except String JsVal :=
  executeScriptInActiveTab tab (fun page =>
    match page.queryAll selector with
    | [] => .error ("No elements found: " ++ selector)
    | els => .ok (.arr (attrJsList attrName els)))

/-- The in-page polling loop of `waitForElement`
(src/commandHandler.ts:376-399): check the selector at `t = 0, 100, …` ms;
resolve `{found: true}` on a match, reject with
`Timeout waiting for element: <selector>` once the elapsed time exceeds
`timeout`. -/
def waitForElementPoll (page : Page) (selector : String) (timeout t : Nat) :
    Except String JsVal :=
  match page.queryAll selector with
  | _ :: _ =>
    .ok (.obj (.cons "found" (.bool true) (.cons "selector" (.str selector) .nil)))
  | [] =>
    if htime : timeout < t then .error ("Timeout waiting for element: " ++ selector)
    else waitForElementPoll page selector timeout (t + 100)
termination_by timeout + 1 - t
decreasing_by omega

/-- `waitForElement` (src/commandHandler.ts:376-399): run the polling
script in the active tab. -/
def waitForElement (tab : Option Page) (selector : String) (timeout : Nat) :
    Except String JsVal :=
  executeScriptInActiveTab tab (fun page => waitForElementPoll page selector timeout 0)

theorem waitForElementPoll_no_match (page : Page) (selector : String)
    (h : page.queryAll selector = []) (timeout : Nat) :
    ∀ t, waitForElementPoll page selector timeout t =
      .error ("Timeout waiting for element: " ++ selector) := by
  have main : ∀ k t, timeout + 1 - t ≤ k →
      waitForElementPoll page selector timeout t =
        .error ("Timeout waiting for element: " ++ selector) := by
    intro k
    induction k with
    | zero =>
      intro t ht
      have hlt : timeout < t := by omega
      rw [waitForElementPoll.eq_def, h]
      simp [hlt]
    | succ k ih =>
      intro t ht
      rw [waitForElementPoll.eq_def, h]
      by_cases hlt : timeout < t
      · simp [hlt]
      · simp only [hlt, dite_false, dif_neg]
        exact ih (t + 100) (by omega)
  intro t
  exact main (timeout + 1 - t) t le_rfl

/-- The page used for concrete scenarios in which no selector matches. -/
def emptyPage : Page := ⟨fun _ => []⟩

/-- C5, counterexample: with zero matches, `getText` (extractText) fails
with "No elements found: h1" — a failure, but its error message does not
mention "not found", refuting "a failure whose error message mentions
'not found'" for the selector commands getText/getHtml/getAttribute (and
`waitForSelector`, whose message is "Timeout waiting for element: …"). -/
theorem extractText_error_lacks_not_found :
    extractText (some emptyPage) "h1" = .error "No elements found: h1" ∧
      mentions "not found" "No elements found: h1" = false :=
  ⟨rfl, by decide⟩

/-- C5, amended: for every command with a selector parameter, zero
matches make the outcome a failure (an `.error`, never a success
payload); the single-element commands click/type/select/hover/focus fail
with a message mentioning "not found", while the multi-element extraction
commands getText/getHtml/getAttribute say "No elements found: …" and
`waitForSelector` rejects with "Timeout waiting for element: …", neither
of which contains "not found". -/
theorem selector_commands_zero_matches (page : Page)
    (selector txt value attrName : String) (timeout : Nat)
    (h : page.queryAll selector = []) :
    (clickElement (some page) selector = .error ("Element not found: " ++ selector) ∧
      fillForm (some page) selector txt = .error ("Form element not found: " ++ selector) ∧
      selectOption (some page) selector value =
        .error ("Select element not found: " ++ selector) ∧
      hoverElement (some page) selector = .error ("Element not found: " ++ selector) ∧
      focusElement (some page) selector = .error ("Element not found: " ++ selector) ∧
      extractText (some page) selector = .error ("No elements found: " ++ selector) ∧
      extractHtml (some page) selector = .error ("No elements found: " ++ selector) ∧
      extractAttribute (some page) selector attrName =
        .error ("No elements found: " ++ selector) ∧
      waitForElement (some page) selector timeout =
        .error ("Timeout waiting for element: " ++ selector)) ∧
    (mentions "not found" ("Element not found: " ++ selector) = true ∧
      mentions "not found" ("Form element not found: " ++ selector) = true ∧
      mentions "not found" ("Select element not found: " ++ selector) = true ∧
      mentions "No elements found" ("No elements found: " ++ selector) = true ∧
      mentions "Timeout waiting for element"
        ("Timeout waiting for element: " ++ selector) = true) := by
  refine ⟨⟨?_, ?_, ?_, ?_, ?_, ?_, ?_, ?_, ?_⟩, ?_, ?_, ?_, ?_, ?_⟩
  · simp [clickElement, executeScriptInActiveTab, h]
  · simp [fillForm, executeScriptInActiveTab, h]
  · simp [selectOption, executeScriptInActiveTab, h]
  · simp [hoverElement, executeScriptInActiveTab, h]
  · simp [focusElement, executeScriptInActiveTab, h]
  · simp [extractText, executeScriptInActiveTab, h]
  · simp [extractHtml, executeScriptInActiveTab, h]
  · simp [extractAttribute, executeScriptInActiveTab, h]
  · simpa [waitForElement, executeScriptInActiveTab]
      using waitForElementPoll_no_match page selector h timeout 0
  · exact mentions_append_left "not found" "Element not found: " selector (by decide)
  · exact mentions_append_left "not found" "Form element not found: " selector (by decide)
  · exact mentions_append_left "not found" "Select element not found: " selector (by decide)
  · exact mentions_append_left "No elements found" "No elements found: " selector (by decide)
  · exact mentions_append_left "Timeout waiting for element"
      "Timeout waiting for element: " selector (by decide)

/-- Witness for `selector_commands_zero_matches` on the empty page with
selector "h1". -/
theorem selector_commands_zero_matches_witness :
    emptyPage.queryAll "h1" = [] ∧
      clickElement (some emptyPage) "h1" = .error ("Element not found: " ++ "h1") ∧
      waitForElement (some emptyPage) "h1" 200 =
        .error ("Timeout waiting for element: " ++ "h1") :=
  ⟨rfl,
    (selector_commands_zero_matches emptyPage "h1" "x" "v" "a" 200 rfl).1.1,
    (selector_commands_zero_matches emptyPage "h1" "x" "v" "a" 200 rfl).1.2.2.2.2.2.2.2.2⟩

/-! ## Navigation commands and the tab-load wait (src/commandHandler.ts)

`waitForTabLoad` registers a `tabs.onUpdated` listener and resolves at
the first status-"complete" update for its tab, or at a 30000 ms timeout
— resolving either way, never rejecting.  The `onUpdated` stream is a
chronological event list; a command's behaviour is the pair of its
resolve time and its resolution value. -/

/-- One `chrome.tabs.onUpdated` notification. -/
structure TabEvent where
  time : Nat
  tab : Nat
  status : String
deriving DecidableEq

/-- The times of the status-"complete" updates for a tab. -/
def completeTimes (tabId : Nat) (events : List TabEvent) : List Nat :=
  (events.filter (fun e => e.tab == tabId && e.status == "complete")).map (·.time)

/-- `waitForTabLoad` (src/commandHandler.ts:193-210): resolve at the
earliest matching complete event, capped by the 30000 ms timeout that
resolves anyway. -/
def waitForTabLoadTime (tabId : Nat) (events : List TabEvent) : Nat :=
  (completeTimes tabId events).foldl min 30000

/-- `navigateToUrl` (src/commandHandler.ts:126-146): update the active
tab (or create `newTabId` when none exists), wait for the tab load, then
resolve `{success: true, url}`. -/
def navigateToUrl (url : String) (activeTab : Option Nat) (newTabId : Nat)
    (events : List TabEvent) : Nat × Except String JsVal :=
  let tabId := match activeTab with | some t => t | none => newTabId
  (waitForTabLoadTime tabId events,
    .ok (.obj (.cons "success" (.bool true) (.cons "url" (.str url) .nil))))

/-- `reloadPage` (src/commandHandler.ts:151-167): rejects without an
active tab; else reloads, waits for the tab load, resolves
`{success: true}`. -/
def reloadPage (activeTab : Option Nat) (events : List TabEvent) :
    Nat × Except String JsVal :=
  match activeTab with
  | none => (0, .error "No active tab found")
  | some t =>
    (waitForTabLoadTime t events, .ok (.obj (.cons "success" (.bool true) .nil)))

/-- `navigateBack` (src/commandHandler.ts:172-177): runs
`window.history.back(); return {success: true}` via
`executeScriptInActiveTab` and resolves as soon as the script returns, at
`scriptTime` — the tab-update event stream plays no part. -/
def navigateBack (tab : Option Page) (scriptTime : Nat) : Nat × Except String JsVal :=
  (scriptTime, executeScriptInActiveTab tab (fun _ =>
    .ok (.obj (.cons "success" (.bool true) .nil))))

/-- `navigateForward` (src/commandHandler.ts:182-187): same shape as
`navigateBack` with `window.history.forward()`. -/
def navigateForward (tab : Option Page) (scriptTime : Nat) : Nat × Except String JsVal :=
  (scriptTime, executeScriptInActiveTab tab (fun _ =>
    .ok (.obj (.cons "success" (.bool true) .nil))))

/-- The property C6 asserts of a navigation command's resolve time: it
resolves only at a load-complete transition of the target, or once the
30 s bound has elapsed. -/
def resolvesOnlyAfterLoadOrTimeout (resolveTime tabId : Nat)
    (events : List TabEvent) : Prop :=
  resolveTime ∈ completeTimes tabId events ∨ 30000 ≤ resolveTime

theorem foldl_min_le_init (l : List Nat) (a : Nat) : l.foldl min a ≤ a := by
  induction l generalizing a with
  | nil => exact le_rfl
  | cons x xs ih => exact le_trans (ih (min a x)) (min_le_left a x)

theorem foldl_min_mem_or_init (l : List Nat) (a : Nat) :
    l.foldl min a = a ∨ l.foldl min a ∈ l := by
  induction l generalizing a with
  | nil => exact Or.inl rfl
  | cons x xs ih =>
    rcases ih (min a x) with h | h
    · rcases min_choice a x with hax | hax
      · exact Or.inl (h.trans hax)
      · exact Or.inr (List.mem_cons.mpr (Or.inl (h.trans hax)))
    · exact Or.inr (List.mem_cons_of_mem x h)

/-- C6, counterexample: the `back` command against an active tab resolves
successfully at the moment its history script returns (here 5 ms), even
though the target never reached load-complete (`events = []`) and the
30 s bound had not elapsed — refuting "resolves only after the target
reaches load-complete or after a bounded 30-second wait". -/
theorem navigateBack_resolves_without_waiting :
    (navigateBack (some emptyPage) 5).2 =
        .ok (.obj (.cons "success" (.bool true) .nil)) ∧
      (navigateBack (some emptyPage) 5).1 = 5 ∧
      ¬ resolvesOnlyAfterLoadOrTimeout 5 0 [] := by
  refine ⟨rfl, rfl, ?_⟩
  intro hcl
  rcases hcl with hmem | hge
  · simp [completeTimes] at hmem
  · omega

/-- C6, amended: `goto` and `reload` (against an existing target) resolve
successfully only at a load-complete event of the target or exactly at
the 30 s bound — and within 30 s — resolving rather than failing in the
timeout case; `back` and `forward`, by contrast, resolve successfully as
soon as their history script returns, without waiting for load-complete. -/
theorem navigation_commands_wait (url : String) (activeTab : Option Nat)
    (newTabId t : Nat) (events : List TabEvent) (page : Page) (scriptTime : Nat) :
    (((navigateToUrl url activeTab newTabId events).1 ∈
        completeTimes (match activeTab with | some a => a | none => newTabId) events ∨
      (navigateToUrl url activeTab newTabId events).1 = 30000) ∧
      (navigateToUrl url activeTab newTabId events).1 ≤ 30000 ∧
      (navigateToUrl url activeTab newTabId events).2 =
        .ok (.obj (.cons "success" (.bool true) (.cons "url" (.str url) .nil)))) ∧
    (((reloadPage (some t) events).1 ∈ completeTimes t events ∨
      (reloadPage (some t) events).1 = 30000) ∧
      (reloadPage (some t) events).1 ≤ 30000 ∧
      (reloadPage (some t) events).2 = .ok (.obj (.cons "success" (.bool true) .nil))) ∧
    navigateBack (some page) scriptTime =
      (scriptTime, .ok (.obj (.cons "success" (.bool true) .nil))) ∧
    navigateForward (some page) scriptTime =
      (scriptTime, .ok (.obj (.cons "success" (.bool true) .nil))) := by
  refine ⟨⟨?_, ?_, rfl⟩, ⟨?_, ?_, rfl⟩, rfl, rfl⟩
  · rcases foldl_min_mem_or_init
        (completeTimes (match activeTab with | some a => a | none => newTabId) events)
        30000 with h | h
    · exact Or.inr h
    · exact Or.inl h
  · exact foldl_min_le_init _ 30000
  · rcases foldl_min_mem_or_init (completeTimes t events) 30000 with h | h
    · exact Or.inr h
    · exact Or.inl h
  · exact foldl_min_le_init _ 30000

/-! ## Identifier generation and persistence (src/ws.ts, src/background.ts) -/

/-- The numeric value inside `generateAccessCode` (src/ws.ts:194-198):
`Math.floor(100000 + Math.random() * 900000)`, with `Math.random()`
yielding a value `r`, `0 ≤ r < 1`. -/
def accessCodeNat (r : ℚ) : ℕ := (⌊(100000 : ℚ) + r * 900000⌋).toNat

/-- `generateAccessCode`: the decimal string of that value
(`.toString()`). -/
def generateAccessCode (r : ℚ) : String := Nat.repr (accessCodeNat r)

theorem accessCodeNat_range (r : ℚ) (h0 : 0 ≤ r) (h1 : r < 1) :
    100000 ≤ accessCodeNat r ∧ accessCodeNat r ≤ 999999 := by
  have hfl : (100000 : ℤ) ≤ ⌊(100000 : ℚ) + r * 900000⌋ := by
    apply Int.le_floor.mpr
    push_cast
    nlinarith
  have hfu : ⌊(100000 : ℚ) + r * 900000⌋ < 1000000 := by
    apply Int.floor_lt.mpr
    push_cast
    nlinarith
  unfold accessCodeNat
  omega

theorem toDigitsCore_length_lb (b : Nat) :
    ∀ (f n : Nat) (l : List Char), 1 ≤ f →
      l.length + 1 ≤ (Nat.toDigitsCore b f n l).length := by
  intro f
  induction f with
  | zero => intro n l h; exact absurd h (by omega)
  | succ f ih =>
    intro n l _
    by_cases hz : n / b = 0
    · simp [Nat.toDigitsCore, hz]
    · simp only [Nat.toDigitsCore, hz, if_false]
      cases f with
      | zero => simp [Nat.toDigitsCore]
      | succ f' =>
        have h := ih (n / b) (Nat.digitChar (n % b) :: l) (by omega)
        simp only [List.length_cons] at h
        omega

theorem toDigitsCore_length_lower (b : Nat) :
    ∀ (k f n : Nat) (l : List Char), 2 ≤ b → b ^ k ≤ n → k + 1 ≤ f →
      l.length + k + 1 ≤ (Nat.toDigitsCore b f n l).length := by
  intro k
  induction k with
  | zero =>
    intro f n l _ _ hf
    have := toDigitsCore_length_lb b f n l hf
    omega
  | succ k ih =>
    intro f n l hb hn hf
    cases f with
    | zero => exact absurd hf (by omega)
    | succ f' =>
      have hb0 : 0 < b := by omega
      have hdiv : b ^ k ≤ n / b := by
        rw [Nat.le_div_iff_mul_le hb0]
        calc b ^ k * b = b ^ (k + 1) := (pow_succ b k).symm
          _ ≤ n := hn
      have hz : n / b ≠ 0 := by
        have : 0 < b ^ k := Nat.pos_pow_of_pos k hb0
        omega
      simp only [Nat.toDigitsCore, hz, if_false]
      have h := ih f' (n / b) (Nat.digitChar (n % b) :: l) hb hdiv (by omega)
      simp only [List.length_cons] at h
      omega

/-- A six-digit number prints as exactly six characters. -/
theorem repr_length_six (n : Nat) (h1 : 100000 ≤ n) (h2 : n ≤ 999999) :
    (Nat.repr n).length = 6 := by
  have hub : (Nat.repr n).length ≤ 6 := Nat.repr_length n 6 (by omega) (by omega)
  have hpow : 10 ^ 5 ≤ n := by omega
  have hcore := toDigitsCore_length_lower 10 5 (n + 1) n [] (by omega) hpow (by omega)
  simp only [List.length_nil] at hcore
  have hrepr : (Nat.repr n).length = (Nat.toDigitsCore 10 (n + 1) n []).length := rfl
  omega

theorem digitChar_digit : ∀ m : Nat, m < 10 → (Nat.digitChar m).isDigit = true := by
  decide

theorem toDigitsCore_all_digits :
    ∀ (f n : Nat) (l : List Char), (∀ c ∈ l, c.isDigit = true) →
      ∀ c ∈ Nat.toDigitsCore 10 f n l, c.isDigit = true := by
  intro f
  induction f with
  | zero => intro n l hl; simpa [Nat.toDigitsCore] using hl
  | succ f ih =>
    intro n l hl
    have hcons : ∀ c ∈ Nat.digitChar (n % 10) :: l, c.isDigit = true := by
      intro c hc
      rcases List.mem_cons.mp hc with rfl | hc
      · exact digitChar_digit (n % 10) (Nat.mod_lt n (by omega))
      · exact hl c hc
    by_cases hz : n / 10 = 0
    · simpa [Nat.toDigitsCore, hz] using hcons
    · simpa only [Nat.toDigitsCore, hz, if_false] using ih (n / 10) _ hcons

/-- Every character of a printed natural number is a decimal digit. -/
theorem repr_all_digits (n : Nat) : ∀ c ∈ (Nat.repr n).data, c.isDigit = true :=
  toDigitsCore_all_digits (n + 1) n [] (by intro c hc; cases hc)

/-- `keepAlive`'s identifier get-or-create flow (src/background.ts:8-16):
`storage.accessCode || generateAccessCode()` uses the stored code when it
is truthy (a non-empty string); `if (!storage.accessCode)` persists the
fresh code exactly when the stored value was absent (or falsy).  Returns
the access code used and the storage contents afterwards. -/
def keepAlive (storage : Option String) (r : ℚ) : String × Option String :=
  let stored := storage.getD ""
  let accessCode := if stored = "" then generateAccessCode r else stored
  let storageAfter := if stored = "" then some accessCode else storage
  (accessCode, storageAfter)

/-- C7: the get-or-create flow generates and persists a fresh code
exactly when storage holds no access code; every generated code is the
decimal string of a number in [100000, 999999] — six characters, all
decimal digits — and a second invocation after the first has persisted a
code returns that same persisted value unchanged. -/
theorem keepAlive_identifier (r r2 : ℚ) (h0 : 0 ≤ r) (h1 : r < 1) :
    (100000 ≤ accessCodeNat r ∧ accessCodeNat r ≤ 999999 ∧
      generateAccessCode r = Nat.repr (accessCodeNat r) ∧
      (generateAccessCode r).length = 6 ∧
      (∀ c ∈ (generateAccessCode r).data, c.isDigit = true)) ∧
    keepAlive none r = (generateAccessCode r, some (generateAccessCode r)) ∧
    (∀ c : String, c ≠ "" → keepAlive (some c) r2 = (c, some c)) ∧
    keepAlive (keepAlive none r).2 r2 = (generateAccessCode r, some (generateAccessCode r)) := by
  obtain ⟨hlo, hhi⟩ := accessCodeNat_range r h0 h1
  have hlen : (generateAccessCode r).length = 6 := repr_length_six _ hlo hhi
  have hstored : ∀ c : String, c ≠ "" → keepAlive (some c) r2 = (c, some c) := by
    intro c hc
    simp [keepAlive, hc]
  have hne : generateAccessCode r ≠ "" := by
    intro e
    rw [e] at hlen
    exact absurd hlen (by decide)
  refine ⟨⟨hlo, hhi, rfl, hlen, repr_all_digits _⟩, rfl, hstored, ?_⟩
  exact hstored (generateAccessCode r) hne

/-- Witness for `keepAlive_identifier` at `r = 1/2`: the generated code
is "550000", and a restart returns the persisted value. -/
theorem keepAlive_identifier_witness :
    (0 : ℚ) ≤ 1 / 2 ∧ (1 / 2 : ℚ) < 1 ∧
      keepAlive none (1 / 2) = (generateAccessCode (1 / 2), some (generateAccessCode (1 / 2))) ∧
      keepAlive (keepAlive none (1 / 2)).2 (1 / 3) =
        (generateAccessCode (1 / 2), some (generateAccessCode (1 / 2))) ∧
      generateAccessCode (1 / 2) = "550000" := by
  have hval : accessCodeNat (1 / 2) = 550000 := by
    unfold accessCodeNat
    have harith : (100000 : ℚ) + (1 / 2) * 900000 = ((550000 : ℤ) : ℚ) := by norm_num
    rw [harith, Int.floor_intCast]
    rfl
  have hmain := keepAlive_identifier (1 / 2) (1 / 3) (by norm_num) (by norm_num)
  refine ⟨by norm_num, by norm_num, hmain.2.1, hmain.2.2.2, ?_⟩
  rw [generateAccessCode, hval]
  rfl

/-! ## The evaluate command (src/commandHandler.ts:336-369) -/

/-- JavaScript truthiness, as tested by `if (result && result.error)`. -/
def jsTruthy : JsVal → Bool
  | .null => false
  | .bool b => b
  | .num n => !(n == 0)
  | .str s => !(s == "")
  | .arr _ => true
  | .obj _ => true
  | .date _ => true

/-- First field of the given name in an object's field list. -/
def findField : JsFields → String → Option JsVal
  | .nil, _ => none
  | .cons k v tl, key => if k = key then some v else findField tl key

/-- Property access `v.error`: a field of an object, `undefined`
(`none`) on anything else. -/
def getField : JsVal → String → Option JsVal
  | .obj fs, key => findField fs key
  | _, _ => none

/-- The message of the in-page catch clause
`{ error: error.message || 'Unknown error during evaluation' }`
(src/commandHandler.ts:354-356): a falsy (empty or absent) message falls
back to the fixed text. -/
def evalCatchMessage : Thrown → String
  | .errorObj m => if m = "" then "Unknown error during evaluation" else m
  | .nonError => "Unknown error during evaluation"

/-- The generated evaluation script (src/commandHandler.ts:346-358):
apply the function to the arguments; a thrown in-page exception is
captured as a result-level `{ error: … }` object. -/
def evalScriptResult (applyFn : JsVal → Except Thrown JsVal) (args : JsVal) : JsVal :=
  match applyFn args with
  | .ok v => v
  | .error t => .obj (.cons "error" (.str (evalCatchMessage t)) .nil)

/-- `evaluateFunction` (src/commandHandler.ts:336-369).  `parsedArgs` is
the outcome of `JSON.parse(argsStr || '[]')` — `none` when the parse
throws, in which case `args` keeps its initial `[]` value (the parse
error is only logged).  The script result is re-raised as a command
failure, `throw new Error(result.error)`, exactly when
`result && result.error` is truthy; the failure carries the `error`
field's value.  Returns the argument value passed to the in-page
function together with the command's outcome. -/
def evaluateFunction (parsedArgs : Option JsVal)
    (applyFn : JsVal → Except Thrown JsVal) : JsVal × Except JsVal JsVal :=
  let args := parsedArgs.getD (.arr .nil)
  let result := evalScriptResult applyFn args
  (args,
    if jsTruthy result then
      match getField result "error" with
      | some e => if jsTruthy e then .error e else .ok result
      | none => .ok result
    else .ok result)

/-- An object result is truthy. -/
theorem jsTruthy_of_getField (v : JsVal) (key : String) (e : JsVal)
    (h : getField v key = some e) : jsTruthy v = true := by
  cases v <;> simp [getField, jsTruthy] at h ⊢

/-- C9, counterexample: an in-page evaluation that returns the object
`{error: ""}` — an object carrying an `error` field — is NOT re-raised:
`result.error` is the empty string, which is falsy, so the truthiness
test `if (result && result.error)` fails and `evaluateFunction` returns
the object as a success result, refuting "whenever the result carries an
error field, evaluateFunction throws". -/
theorem evaluateFunction_empty_error_field_is_success :
    (evaluateFunction (some (.arr .nil))
        (fun _ => .ok (.obj (.cons "error" (.str "") .nil)))).2 =
      .ok (.obj (.cons "error" (.str "") .nil)) ∧
      getField (.obj (.cons "error" (.str "") .nil)) "error" = some (.str "") :=
  ⟨rfl, rfl⟩

/-- C9, amended: when the JSON argument string fails to parse the
function is still invoked, with the empty argument list; the evaluation
result is re-raised as a command failure carrying the `error` field's
value exactly when that field's value is truthy — in particular every
in-page exception, whose captured `error` value is a never-empty string,
is re-raised — while an object whose `error` field holds a falsy value
(such as the empty string) is returned as a success result. -/
theorem evaluateFunction_amended (applyFn : JsVal → Except Thrown JsVal) :
    ((evaluateFunction none applyFn).1 = .arr .nil ∧
      (evaluateFunction none applyFn).2 =
        (evaluateFunction (some (.arr .nil)) applyFn).2) ∧
    (∀ parsedArgs : Option JsVal, ∀ e : JsVal,
      getField (evalScriptResult applyFn (parsedArgs.getD (.arr .nil))) "error" = some e →
      jsTruthy e = true →
      (evaluateFunction parsedArgs applyFn).2 = .error e) ∧
    (∀ parsedArgs : Option JsVal, ∀ t : Thrown,
      applyFn (parsedArgs.getD (.arr .nil)) = .error t →
      (evaluateFunction parsedArgs applyFn).2 = .error (.str (evalCatchMessage t))) := by
  have hraise : ∀ parsedArgs : Option JsVal, ∀ e : JsVal,
      getField (evalScriptResult applyFn (parsedArgs.getD (.arr .nil))) "error" = some e →
      jsTruthy e = true →
      (evaluateFunction parsedArgs applyFn).2 = .error e := by
    intro parsedArgs e hf ht
    have htr := jsTruthy_of_getField _ _ _ hf
    simp [evaluateFunction, htr, hf, ht]
  refine ⟨⟨rfl, rfl⟩, hraise, ?_⟩
  intro parsedArgs t hthrow
  have hmsg : evalCatchMessage t ≠ "" := by
    cases t with
    | errorObj m =>
      by_cases hm : m = "" <;> simp [evalCatchMessage, hm]
    | nonError => simp [evalCatchMessage]
  have hres : evalScriptResult applyFn (parsedArgs.getD (.arr .nil)) =
      .obj (.cons "error" (.str (evalCatchMessage t)) .nil) := by
    simp [evalScriptResult, hthrow]
  apply hraise parsedArgs (.str (evalCatchMessage t))
  · rw [hres]; simp [getField, findField]
  · simp [jsTruthy, hmsg]

/-- Witness for `evaluateFunction_amended`: a parse failure still invokes
the function with `[]`, and an in-page throw of `Error("boom")` is
re-raised as a failure carrying "boom". -/
theorem evaluateFunction_amended_witness :
    (evaluateFunction none (fun _ => .error (.errorObj "boom"))).1 = .arr .nil ∧
      (fun (_ : JsVal) => (.error (.errorObj "boom") : Except Thrown JsVal))
          ((none : Option JsVal).getD (.arr .nil)) = .error (.errorObj "boom") ∧
      (evaluateFunction none (fun _ => .error (.errorObj "boom"))).2 =
        .error (.str (evalCatchMessage (.errorObj "boom"))) :=
  ⟨(evaluateFunction_amended (fun _ => .error (.errorObj "boom"))).1.1, rfl,
    (evaluateFunction_amended (fun _ => .error (.errorObj "boom"))).2.2 none
      (.errorObj "boom") rfl⟩
